import Mathlib

/-! Farmket — verification of the catalog and identity components.

Shallow embedding of `src/products/models.py` and `src/users/models.py`:
the Django slug-assignment hooks (`Category.save`, `Product.save`), the
derived product fields (`final_price`, `discount_percentage`,
`is_in_stock`), and the custom `UserManager` (`create_user`,
`create_superuser`).

Python `Decimal` money values are modelled as exact rationals `ℚ`
(`round(·, 2)` on `Decimal` is round-half-even, modelled exactly);
Python truthiness of an optional decimal (`if self.discount_price`) is
"present and nonzero"; the Django ORM table is a list of rows passed
explicitly.
-/

namespace Farmket

/-! Section: Python string primitives (ASCII fragment).

`isPySpace` is the character class of Python's `str.strip()` / regex `\s`.
-/

def isPySpace (c : Char) : Bool :=
  c = ' ' || c = '\t' || c = '\n' || c = '\r' || c = '\x0b' || c = '\x0c'

/-- Drop matching characters from both ends of a character list
(Python's `str.strip(chars)`). -/
def stripEnds (p : Char → Bool) (l : List Char) : List Char :=
  ((l.dropWhile p).reverse.dropWhile p).reverse

/-! Section: `django.utils.text.slugify` (with `allow_unicode=False`, on ASCII input).

    value = value.lower()
    value = re.sub(r"[^\w\s-]", "", value)
    return re.sub(r"[-\s]+", "-", value).strip("-_")

(The NFKD-normalise/ASCII-encode step is the identity on ASCII input and
is not modelled.)
-/

/-- Characters kept by `re.sub(r"[^\w\s-]", "", ...)`: word characters,
whitespace and hyphen. -/
def isSlugKeep (c : Char) : Bool :=
  c.isAlphanum || c = '_' || isPySpace c || c = '-'

def isDashOrSpace (c : Char) : Bool :=
  c = '-' || isPySpace c

/-- Regex step `re.sub(r"[-\s]+", "-", value)`: each maximal run of hyphens and
whitespace becomes a single hyphen.  The boolean flag records whether the
previous character belonged to such a run. -/
def collapseDashRuns : Bool → List Char → List Char
  | _, [] => []
  | inRun, c :: rest =>
    if isDashOrSpace c then
      if inRun then collapseDashRuns true rest
      else '-' :: collapseDashRuns true rest
    else c :: collapseDashRuns false rest

def slugify (s : String) : String :=
  String.mk (stripEnds (fun c => c = '-' || c = '_')
    (collapseDashRuns false ((s.data.map Char.toLower).filter isSlugKeep)))

/-- Runs of non-alphanumeric characters collapsed to a single `'-'`
separator (state flag: inside such a run).  Used only by
`slugifyAsDescribed`. -/
def collapseNonAlnumRuns : Bool → List Char → List Char
  | _, [] => []
  | inRun, c :: rest =>
    if c.isAlphanum then c :: collapseNonAlnumRuns false rest
    else if inRun then collapseNonAlnumRuns true rest
    else '-' :: collapseNonAlnumRuns true rest

/-- The slugification transform as the spec's parenthetical describes
it — "lowercase, non-alphanumeric runs collapsed to a single separator,
leading/trailing separators trimmed" — written from those words, to be
compared with the source's `slugify`.  The two differ: the source keeps
underscores and *deletes* (rather than collapses) punctuation that is
not whitespace or a hyphen. -/
def slugifyAsDescribed (s : String) : String :=
  String.mk (stripEnds (fun c => c = '-')
    (collapseNonAlnumRuns false (s.data.map Char.toLower)))

/-! Section: decimal rendering of a counter (Python f-string `base_slug` dash `counter`). -/

/-- Most-significant-first decimal digits of `n`; the first argument is
fuel (structural recursion), `n` itself is always enough. -/
def natDigitsAux : Nat → Nat → List Char
  | 0, _ => []
  | fuel + 1, n =>
    if n = 0 then []
    else natDigitsAux fuel (n / 10) ++ [Nat.digitChar (n % 10)]

/-- Decimal string of a natural number, as Python's `str`/f-string. -/
def natToString (n : Nat) : String :=
  if n = 0 then "0" else String.mk (natDigitsAux n n)

/-- The `counter`-th collision candidate `f"{base_slug}-{counter}"`. -/
def candidate (base : String) (counter : Nat) : String :=
  base ++ "-" ++ natToString counter

/-- The sequence of slugs `Product.save` hands out for a fixed base:
`base`, `base-1`, `base-2`, … -/
def slugAt (base : String) : Nat → String
  | 0 => base
  | k + 1 => candidate base (k + 1)

/-! Section: catalog component (`src/products/models.py`). -/

/-- One persisted `products` row, restricted to the columns the slug
probe consults (`pk`, `slug`). -/
structure ProductRow where
  pk : Nat
  slug : String
  deriving Repr, DecidableEq

/-- In-memory `Product` instance, restricted to the fields the verified
behaviour reads: `pk` is `None` before the first insert; `price` and
`discount_price` are `Decimal` columns; `status` is the enumerated
status string. -/
structure Product where
  pk : Option Nat := none
  name : String := ""
  slug : String := ""
  price : ℚ := 0
  discount_price : Option ℚ := none
  stock_quantity : Nat := 0
  status : String := "available"
  deriving Repr, DecidableEq

/-- Query `Product.objects.filter(slug=s)` (optionally `.exclude(pk=self.pk)`)
`.exists()`. -/
def slugTaken (db : List ProductRow) (selfPk : Option Nat) (s : String) : Bool :=
  db.any fun r =>
    match selfPk with
    | none => r.slug == s
    | some pk => r.slug == s && r.pk != pk

/-- The `while slug_conflict_qs.exists():` loop of `Product.save`:
re-query with `f"{base_slug}-{counter}"`, incrementing `counter`, until
no conflicting row remains.  Structural fuel replaces the Python loop's
termination-by-finite-table; `assignProductSlug` supplies enough fuel
that it is never exhausted. -/
def probeSlug (db : List ProductRow) (selfPk : Option Nat) (base : String) :
    Nat → String → Nat → String
  | 0, slug, _ => slug
  | fuel + 1, slug, counter =>
    if slugTaken db selfPk slug then
      probeSlug db selfPk base fuel (candidate base counter) (counter + 1)
    else slug

/-- The slug-mutation part of `Product.save`: if `slug` is falsy (empty),
set it to the first conflict-free candidate starting from
`slugify(name)`; otherwise leave it untouched. -/
def assignProductSlug (db : List ProductRow) (selfPk : Option Nat)
    (slug name : String) : String :=
  if slug = "" then
    let baseSlug := slugify name
    probeSlug db selfPk baseSlug (db.length + 1) baseSlug 1
  else slug

/-- Operation `Product.save` on an in-memory product against table `db`: mutate the
slug field, then write the row (a fresh `pk` of `db.length + 1` on
insert). Returns the updated table and the saved product. -/
def productSave (db : List ProductRow) (p : Product) :
    List ProductRow × Product :=
  let slug := assignProductSlug db p.pk p.slug p.name
  match p.pk with
  | some pk =>
    (db.map fun r => if r.pk = pk then { r with slug := slug } else r,
     { p with slug := slug })
  | none =>
    let pk := db.length + 1
    (db ++ [⟨pk, slug⟩], { p with pk := some pk, slug := slug })

/-- Create-and-save one new product named `n` (empty slug, no pk). -/
def createProduct (db : List ProductRow) (n : String) : List ProductRow :=
  (productSave db { name := n }).1

/-- Create products with the given names in order, starting from an
empty table. -/
def createProducts (names : List String) : List ProductRow :=
  names.foldl createProduct []

/-- The slug-mutation part of `Category.save`: if `slug` is falsy, set it
to `slugify(name)` — no collision loop. -/
def assignCategorySlug (slug name : String) : String :=
  if slug = "" then slugify name else slug

/-! Section: derived product fields. -/

/-- Python `round(q, 2)` on `Decimal`: round-half-even at two decimal places. -/
def roundHalfEven (q : ℚ) : ℤ :=
  if q - ⌊q⌋ < 1 / 2 then ⌊q⌋
  else if q - ⌊q⌋ > 1 / 2 then ⌊q⌋ + 1
  else if 2 ∣ ⌊q⌋ then ⌊q⌋ else ⌊q⌋ + 1

def roundTo2 (q : ℚ) : ℚ :=
  (roundHalfEven (q * 100) : ℚ) / 100

/-- Property `Product.discount_percentage`: guarded by Python truthiness of
`discount_price` (present *and* nonzero) and `price > 0`. -/
def Product.discount_percentage (p : Product) : ℚ :=
  match p.discount_price with
  | some d => if d ≠ 0 ∧ p.price > 0 then roundTo2 (((p.price - d) / p.price) * 100) else 0
  | none => 0

/-- Property `Product.final_price`: `self.discount_price if self.discount_price
else self.price` — again Python truthiness, so a present-but-zero
discount price falls through to `price`. -/
def Product.final_price (p : Product) : ℚ :=
  match p.discount_price with
  | some d => if d ≠ 0 then d else p.price
  | none => p.price

/-- Property `Product.is_in_stock`: `self.stock_quantity > 0`. -/
def Product.is_in_stock (p : Product) : Bool :=
  p.stock_quantity > 0

/-! Section: identity component (`src/users/models.py`).

`UserManager.create_user` / `create_superuser`.  The `email` argument is
`Option String` (`none` models Python `None`); `if not email` is falsy
for both `None` and `""`.  Exceptions (`ValueError`) are modelled by
`Except String`.  Password hashing is out of scope: `set_password`
stores the raw credential opaquely.
-/

/-- One persisted `users` row, restricted to the fields the manager
claims read. Field defaults mirror the model's column defaults
(`is_active=True`, `is_staff=False`, `is_superuser=False` from
`PermissionsMixin`). -/
structure UserRow where
  email : String
  is_staff : Bool := false
  is_superuser : Bool := false
  is_active : Bool := true
  password : Option String := none
  deriving Repr, DecidableEq

/-- The `**extra_fields` keyword dictionary, restricted to the three
flags the manager manipulates; `none` means the key is absent. -/
structure ExtraFields where
  is_staff : Option Bool := none
  is_superuser : Option Bool := none
  is_active : Option Bool := none
  deriving Repr, DecidableEq

/-- Python truthiness of the `email` argument (`if not email`). -/
def emailTruthy : Option String → Bool
  | none => false
  | some s => s ≠ ""

/-- Split a character list around the *last* occurrence of `c`
(Python's `rsplit(c, 1)` when it succeeds; `none` when `c` is absent). -/
def rsplitLast (c : Char) : List Char → Option (List Char × List Char)
  | [] => none
  | x :: xs =>
    match rsplitLast c xs with
    | some (a, b) => some (x :: a, b)
    | none => if x = c then some ([], xs) else none

/-- Django's `BaseUserManager.normalize_email`: strip the whole address, split on
the last `@`, lower-case the domain part; an address without `@` is
returned unchanged (the `except ValueError: pass` branch, which also
skips the strip). -/
def normalize_email (email : String) : String :=
  match rsplitLast '@' (stripEnds isPySpace email.data) with
  | some (name, domain) => String.mk name ++ "@" ++ String.mk (domain.map Char.toLower)
  | none => email

/-- Operation `UserManager.create_user`: reject a falsy email, otherwise normalize
it, build the row from `extra_fields` (absent flags take the column
defaults), set the password and insert.  Returns the new table and the
created row. -/
def create_user (db : List UserRow) (email : Option String)
    (password : Option String) (extra : ExtraFields) :
    Except String (List UserRow × UserRow) :=
  if emailTruthy email = false then
    .error "Users must have an email address"
  else
    let user : UserRow :=
      { email := normalize_email (email.getD "")
        is_staff := extra.is_staff.getD false
        is_superuser := extra.is_superuser.getD false
        is_active := extra.is_active.getD true
        password := password }
    .ok (db ++ [user], user)

/-- Python `extra_fields.setdefault(key, True)`. -/
def setdefaultTrue : Option Bool → Option Bool
  | none => some true
  | some b => some b

/-- Operation `UserManager.create_superuser`: default the three flags, reject an
explicit `is_staff=False` or `is_superuser=False`, then delegate to
`create_user`. -/
def create_superuser (db : List UserRow) (email : Option String)
    (password : Option String) (extra : ExtraFields) :
    Except String (List UserRow × UserRow) :=
  let extra : ExtraFields :=
    { is_staff := setdefaultTrue extra.is_staff
      is_superuser := setdefaultTrue extra.is_superuser
      is_active := setdefaultTrue extra.is_active }
  if extra.is_staff ≠ some true then
    .error "Superuser must have is_staff=True."
  else if extra.is_superuser ≠ some true then
    .error "Superuser must have is_superuser=True."
  else
    create_user db email password extra

/-! Section: verification helpers (decimal parsing, used only to prove
injectivity of `natToString`). -/

/-- Numeric value of a decimal digit character. -/
def charToDigit (c : Char) : Nat := c.toNat - 48

/-- Left inverse of `natToString` on its image. -/
def stringToNat (s : String) : Nat :=
  s.data.foldl (fun acc c => acc * 10 + charToDigit c) 0

/-! Section: theorems for the derived-field and category-slug claims. -/

/-- C2: when a product's slug field is already non-empty, `Product.save`
leaves it unchanged — it is not re-derived from `name` even if `name`
has changed — so re-saving preserves the existing slug verbatim. -/
theorem c2_save_preserves_nonempty_slug (db : List ProductRow) (p : Product)
    (h : p.slug ≠ "") :
    (productSave db p).2.slug = p.slug ∧
    (∀ n : String, assignProductSlug db p.pk p.slug n = p.slug) := by
  have ha : ∀ n : String, assignProductSlug db p.pk p.slug n = p.slug := by
    intro n
    unfold assignProductSlug
    simp [h]
  refine ⟨?_, ha⟩
  unfold productSave
  cases hp : p.pk <;> simp [hp, hp ▸ ha p.name]

/-- Witness for C2 at a concrete re-save. -/
theorem c2_witness :
    (productSave [⟨1, "kept-slug"⟩]
        { pk := some 1, name := "Changed Name", slug := "kept-slug" }).2.slug =
      "kept-slug" :=
  (c2_save_preserves_nonempty_slug [⟨1, "kept-slug"⟩]
    { pk := some 1, name := "Changed Name", slug := "kept-slug" } (by decide)).1

/-- C3 counterexample: the claim describes the slugification transform
as "non-alphanumeric runs collapsed to a single separator", which on
`"Farm_Fresh!Eggs"` would give `"farm-fresh-eggs"`; the source's
transform keeps the underscore and deletes the `!`, and `Category.save`
stores `"farm_fresheggs"`. -/
theorem c3_counterexample :
    assignCategorySlug "" "Farm_Fresh!Eggs" = "farm_fresheggs" ∧
    slugifyAsDescribed "Farm_Fresh!Eggs" = "farm-fresh-eggs" ∧
    ("farm_fresheggs" : String) ≠ "farm-fresh-eggs" := by
  refine ⟨by decide, by decide, by decide⟩

/-- C3 (amended): `Category.save` with an empty slug sets it to
`slugify(name)` — lowercase, punctuation other than hyphen, underscore
and whitespace deleted, runs of whitespace and hyphens collapsed to a
single hyphen, leading/trailing hyphens and underscores trimmed — with
no collision-suffix loop, so two categories whose names slugify
identically receive the same slug from this operation. -/
theorem c3_category_slug (n₁ n₂ : String) (h : slugify n₁ = slugify n₂) :
    assignCategorySlug "" n₁ = slugify n₁ ∧
    assignCategorySlug "" n₂ = slugify n₂ ∧
    assignCategorySlug "" n₁ = assignCategorySlug "" n₂ := by
  refine ⟨rfl, rfl, ?_⟩
  simpa [assignCategorySlug] using h

/-- Witness for C3: two different names with the same slugification. -/
theorem c3_witness :
    assignCategorySlug "" "Fresh Fruit!" = slugify "Fresh Fruit!" ∧
    assignCategorySlug "" "fresh--fruit" = slugify "fresh--fruit" ∧
    assignCategorySlug "" "Fresh Fruit!" = assignCategorySlug "" "fresh--fruit" :=
  c3_category_slug "Fresh Fruit!" "fresh--fruit" (by decide)

/-- C4 counterexample: with `discount_price` set to the non-null value
`0`, the claim says `final_price` returns the discount price `0`, but
the code's truthiness test makes it return `price = 100`. -/
theorem c4_counterexample :
    ({ price := 100, discount_price := some 0 } : Product).discount_price = some 0 ∧
    Product.final_price { price := 100, discount_price := some 0 } ≠ 0 ∧
    Product.final_price { price := 100, discount_price := some 0 } = 100 := by
  refine ⟨rfl, ?_, ?_⟩ <;> norm_num [Product.final_price]

/-- C4 (amended): `final_price` returns `discount_price` whenever it is
set and nonzero — even when it exceeds `price` — and returns `price`
otherwise (unset, or set to zero). -/
theorem c4_final_price (p : Product) :
    (∀ d : ℚ, p.discount_price = some d → d ≠ 0 → p.final_price = d) ∧
    (p.discount_price = none → p.final_price = p.price) ∧
    (p.discount_price = some 0 → p.final_price = p.price) := by
  refine ⟨?_, ?_, ?_⟩ <;> intro h <;>
    simp_all [Product.final_price]

/-- Witness for C4 at a discount price exceeding the price. -/
theorem c4_witness :
    Product.final_price { price := 100, discount_price := some 120 } = 120 :=
  (c4_final_price { price := 100, discount_price := some 120 }).1 120 rfl
    (by norm_num)

/-- C5 counterexample: with `discount_price` set to the non-null value
`0` and `price = 100 > 0`, the claim's formula yields `100.00`, but the
code's truthiness test yields `0.00`. -/
theorem c5_counterexample :
    Product.discount_percentage { price := 100, discount_price := some 0 } = 0 ∧
    roundTo2 (((100 - 0) / 100) * 100) = 100 ∧ (0 : ℚ) ≠ 100 := by
  refine ⟨?_, ?_, ?_⟩
  · norm_num [Product.discount_percentage]
  · norm_num [roundTo2, roundHalfEven]
  · norm_num

/-- C5 (amended): `discount_percentage` equals
`round(((price - discount_price) / price) * 100, 2)` whenever
`discount_price` is set and nonzero and `price > 0` (negative when the
discount price exceeds the price, with no error), and `0.00` otherwise
(unset, set to zero, or non-positive price). -/
theorem c5_discount_percentage (p : Product) :
    (∀ d : ℚ, p.discount_price = some d → d ≠ 0 → 0 < p.price →
      p.discount_percentage = roundTo2 (((p.price - d) / p.price) * 100)) ∧
    (p.discount_price = none → p.discount_percentage = 0) ∧
    (p.discount_price = some 0 → p.discount_percentage = 0) ∧
    (¬ 0 < p.price → p.discount_percentage = 0) := by
  refine ⟨?_, ?_, ?_, ?_⟩
  · intro d hd hdz hp
    simp [Product.discount_percentage, hd, hdz, hp]
  · intro h
    simp [Product.discount_percentage, h]
  · intro h
    simp [Product.discount_percentage, h]
  · intro h
    cases hd : p.discount_price <;>
      simp [Product.discount_percentage, hd, h]

/-- Witness for C5: the spec's two concrete examples, `25.00` and the
negative `-20.00`. -/
theorem c5_witness :
    Product.discount_percentage { price := 100, discount_price := some 75 } = 25 ∧
    Product.discount_percentage { price := 100, discount_price := some 120 } = -20 := by
  constructor
  · rw [(c5_discount_percentage { price := 100, discount_price := some 75 }).1
      75 rfl (by norm_num) (by norm_num)]
    norm_num [roundTo2, roundHalfEven]
  · rw [(c5_discount_percentage { price := 100, discount_price := some 120 }).1
      120 rfl (by norm_num) (by norm_num)]
    norm_num [roundTo2, roundHalfEven]

/-- C6: `is_in_stock` is true iff `stock_quantity > 0`, independent of
`status`; in particular a product with `status = "available"` and zero
stock reports `is_in_stock = false`. -/
theorem c6_is_in_stock (p : Product) :
    (p.is_in_stock = true ↔ 0 < p.stock_quantity) ∧
    (∀ s : String, Product.is_in_stock { p with status := s } = p.is_in_stock) ∧
    (p.status = "available" → p.stock_quantity = 0 → p.is_in_stock = false) := by
  refine ⟨?_, ?_, ?_⟩
  · simp [Product.is_in_stock]
  · intro s
    simp [Product.is_in_stock]
  · intro _ hq
    simp [Product.is_in_stock, hq]

/-- Witness for C6: an `available` product with zero stock is not in
stock. -/
theorem c6_witness :
    Product.is_in_stock { status := "available", stock_quantity := 0 } = false :=
  (c6_is_in_stock { status := "available", stock_quantity := 0 }).2.2 rfl rfl

/-- C9: a `discount_price` of exactly zero (a non-null value) is falsy
in Python, so `final_price` falls through to `price` and
`discount_percentage` yields `0.00`. -/
theorem c9_zero_discount_price (p : Product) (h : p.discount_price = some 0) :
    p.final_price = p.price ∧ p.discount_percentage = 0 := by
  constructor
  · simp [Product.final_price, h]
  · simp [Product.discount_percentage, h]

/-- Witness for C9 at a concrete product. -/
theorem c9_witness :
    Product.final_price { price := 42, discount_price := some 0 } =
      ({ price := 42, discount_price := some 0 } : Product).price ∧
    Product.discount_percentage { price := 42, discount_price := some 0 } = 0 :=
  c9_zero_discount_price { price := 42, discount_price := some 0 } rfl

/-! Section: theorems for the identity-component claims. -/

/-- C7: `create_user` fails (creating no row) when the email argument is
absent or empty, and on success inserts exactly one row whose stored
email is the normalized input (domain part lower-cased by
`normalize_email`). -/
theorem c7_create_user (db : List UserRow) (pwd : Option String)
    (extra : ExtraFields) :
    (create_user db none pwd extra = .error "Users must have an email address") ∧
    (create_user db (some "") pwd extra = .error "Users must have an email address") ∧
    (∀ e : String, e ≠ "" →
      ∃ row : UserRow,
        create_user db (some e) pwd extra = .ok (db ++ [row], row) ∧
        row.email = normalize_email e) := by
  refine ⟨rfl, rfl, ?_⟩
  intro e he
  refine ⟨{ email := normalize_email e
            is_staff := extra.is_staff.getD false
            is_superuser := extra.is_superuser.getD false
            is_active := extra.is_active.getD true
            password := pwd }, ?_, rfl⟩
  simp [create_user, emailTruthy, he]

/-- Witness for C7: empty email is rejected; `"A@Example.com"` is stored
with a lower-cased domain. -/
theorem c7_witness :
    create_user [] (some "") (some "x") {} = .error "Users must have an email address" ∧
    normalize_email "A@Example.com" = "A@example.com" ∧
    (∃ row : UserRow,
      create_user [] (some "A@Example.com") (some "x") {} = .ok ([row], row) ∧
      row.email = normalize_email "A@Example.com") :=
  ⟨(c7_create_user [] (some "x") {}).2.1, by decide,
   (c7_create_user [] (some "x") {}).2.2 "A@Example.com" (by decide)⟩

/-- C8: `create_superuser` defaults `is_staff` and `is_superuser` to
true when the caller does not supply them, fails before creating any
row when the caller explicitly passes either flag as false (`is_staff`
checked first), and otherwise delegates to `create_user` with the
defaulted fields. -/
theorem c8_create_superuser (db : List UserRow) (email : Option String)
    (pwd : Option String) (extra : ExtraFields) :
    (extra.is_staff = some false →
      create_superuser db email pwd extra =
        .error "Superuser must have is_staff=True.") ∧
    (extra.is_staff ≠ some false → extra.is_superuser = some false →
      create_superuser db email pwd extra =
        .error "Superuser must have is_superuser=True.") ∧
    (extra.is_staff ≠ some false → extra.is_superuser ≠ some false →
      create_superuser db email pwd extra =
        create_user db email pwd
          { is_staff := setdefaultTrue extra.is_staff
            is_superuser := setdefaultTrue extra.is_superuser
            is_active := setdefaultTrue extra.is_active }) ∧
    (extra.is_staff = none → extra.is_superuser = none → emailTruthy email = true →
      ∃ row : UserRow,
        create_superuser db email pwd extra = .ok (db ++ [row], row) ∧
        row.is_staff = true ∧ row.is_superuser = true) := by
  rcases extra with ⟨st, su, ac⟩
  refine ⟨?_, ?_, ?_, ?_⟩
  · intro h
    simp only at h
    simp [create_superuser, setdefaultTrue, h]
  · intro h1 h2
    simp only at h1 h2
    subst h2
    rcases st with _ | b
    · simp [create_superuser, setdefaultTrue]
    · rcases b
      · exact absurd rfl h1
      · simp [create_superuser, setdefaultTrue]
  · intro h1 h2
    simp only at h1 h2
    rcases st with _ | b₁ <;> rcases su with _ | b₂
    · simp [create_superuser, setdefaultTrue]
    · rcases b₂
      · exact absurd rfl h2
      · simp [create_superuser, setdefaultTrue]
    · rcases b₁
      · exact absurd rfl h1
      · simp [create_superuser, setdefaultTrue]
    · rcases b₁
      · exact absurd rfl h1
      · rcases b₂
        · exact absurd rfl h2
        · simp [create_superuser, setdefaultTrue]
  · intro h1 h2 he
    simp only at h1 h2
    subst h1; subst h2
    rcases email with _ | e
    · simp [emailTruthy] at he
    · refine ⟨{ email := normalize_email e
                is_staff := true
                is_superuser := true
                is_active := (setdefaultTrue ac).getD true
                password := pwd }, ?_, rfl, rfl⟩
      simp [create_superuser, setdefaultTrue, create_user, he]

/-- Witness for C8: explicit `is_staff=False` is rejected; no flags
supplied yields a staff superuser row. -/
theorem c8_witness :
    create_superuser [] (some "a@b.com") (some "x") { is_staff := some false } =
      .error "Superuser must have is_staff=True." ∧
    (∃ row : UserRow,
      create_superuser [] (some "a@b.com") (some "x") {} = .ok ([row], row) ∧
      row.is_staff = true ∧ row.is_superuser = true) :=
  ⟨(c8_create_superuser [] (some "a@b.com") (some "x")
      { is_staff := some false }).1 rfl,
   (c8_create_superuser [] (some "a@b.com") (some "x") {}).2.2.2 rfl rfl (by decide)⟩

/-- C10: `create_superuser` also defaults `is_active` to true when the
caller does not supply it, while a caller-supplied `is_active` value is
passed through unchanged to the created row. -/
theorem c10_superuser_is_active (db : List UserRow) (email : Option String)
    (pwd : Option String) (extra : ExtraFields)
    (hst : extra.is_staff ≠ some false) (hsu : extra.is_superuser ≠ some false)
    (he : emailTruthy email = true) :
    (extra.is_active = none →
      ∃ row : UserRow,
        create_superuser db email pwd extra = .ok (db ++ [row], row) ∧
        row.is_active = true) ∧
    (∀ b : Bool, extra.is_active = some b →
      ∃ row : UserRow,
        create_superuser db email pwd extra = .ok (db ++ [row], row) ∧
        row.is_active = b) := by
  rcases email with _ | e
  · simp [emailTruthy] at he
  · rcases extra with ⟨st, su, ac⟩
    simp only at hst hsu
    have hst' : setdefaultTrue st = some true := by
      rcases st with _ | b
      · rfl
      · rcases b
        · exact absurd rfl hst
        · rfl
    have hsu' : setdefaultTrue su = some true := by
      rcases su with _ | b
      · rfl
      · rcases b
        · exact absurd rfl hsu
        · rfl
    constructor
    · intro h
      simp only at h
      subst h
      refine ⟨{ email := normalize_email e
                is_staff := true
                is_superuser := true
                is_active := true
                password := pwd }, ?_, rfl⟩
      simp [create_superuser, hst', hsu', create_user, he]
      rfl
    · intro b h
      simp only at h
      subst h
      refine ⟨{ email := normalize_email e
                is_staff := true
                is_superuser := true
                is_active := b
                password := pwd }, ?_, rfl⟩
      simp [create_superuser, hst', hsu', create_user, he]
      rfl

/-- Witness for C10: omitted `is_active` becomes true; an explicit
`is_active=False` is passed through. -/
theorem c10_witness :
    (∃ row : UserRow,
      create_superuser [] (some "a@b.com") (some "x") {} = .ok ([row], row) ∧
      row.is_active = true) ∧
    (∃ row : UserRow,
      create_superuser [] (some "a@b.com") (some "x") { is_active := some false } =
        .ok ([row], row) ∧
      row.is_active = false) :=
  ⟨(c10_superuser_is_active [] (some "a@b.com") (some "x") {}
      (by decide) (by decide) (by decide)).1 rfl,
   (c10_superuser_is_active [] (some "a@b.com") (some "x") { is_active := some false }
      (by decide) (by decide) (by decide)).2 false rfl⟩

/-! Section: the collision-probe development for C1. -/

theorem charToDigit_digitChar (d : Nat) (hd : d < 10) :
    charToDigit (Nat.digitChar d) = d := by
  interval_cases d <;> decide

theorem natDigitsAux_foldl (fuel : Nat) :
    ∀ n acc, n ≤ fuel →
      (natDigitsAux fuel n).foldl (fun a c => a * 10 + charToDigit c) acc =
        acc * 10 ^ (natDigitsAux fuel n).length + n := by
  induction fuel with
  | zero =>
    intro n acc hn
    interval_cases n
    simp [natDigitsAux]
  | succ fuel ih =>
    intro n acc hn
    by_cases h0 : n = 0
    · subst h0
      simp [natDigitsAux]
    · have hdiv : n / 10 ≤ fuel := by
        have := Nat.div_lt_self (Nat.pos_of_ne_zero h0) (by norm_num : 1 < 10)
        omega
      have hmod : 10 * (n / 10) + n % 10 = n := Nat.div_add_mod n 10
      simp only [natDigitsAux, if_neg h0, List.foldl_append, List.foldl_cons,
        List.foldl_nil, List.length_append, List.length_cons, List.length_nil]
      rw [ih (n / 10) acc hdiv,
        charToDigit_digitChar (n % 10) (Nat.mod_lt n (by norm_num))]
      calc (acc * 10 ^ (natDigitsAux fuel (n / 10)).length + n / 10) * 10 + n % 10
          = acc * (10 ^ (natDigitsAux fuel (n / 10)).length * 10) +
              (10 * (n / 10) + n % 10) := by ring
        _ = acc * 10 ^ ((natDigitsAux fuel (n / 10)).length + 0 + 1) + n := by
              rw [hmod]; ring

theorem stringToNat_natToString (n : Nat) : stringToNat (natToString n) = n := by
  by_cases h : n = 0
  · subst h
    decide
  · unfold natToString
    rw [if_neg h]
    have := natDigitsAux_foldl n n 0 le_rfl
    simpa [stringToNat] using this

theorem natToString_injective : Function.Injective natToString :=
  Function.LeftInverse.injective stringToNat_natToString

theorem string_data_append (a b : String) : (a ++ b).data = a.data ++ b.data := rfl

theorem string_data_inj {a b : String} (h : a.data = b.data) : a = b := by
  cases a
  cases b
  exact congrArg String.mk h

theorem candidate_inj (base : String) {i j : Nat}
    (h : candidate base i = candidate base j) : i = j := by
  have h' : (candidate base i).data = (candidate base j).data :=
    congrArg String.data h
  simp only [candidate, string_data_append] at h'
  exact natToString_injective
    (string_data_inj (List.append_cancel_left h'))

theorem candidate_ne_base (base : String) (k : Nat) : candidate base k ≠ base := by
  intro h
  have h' := congrArg (fun s : String => s.data.length) h
  simp only [candidate, string_data_append, List.length_append,
    List.length_singleton] at h'
  omega

theorem slugAt_injective (base : String) : Function.Injective (slugAt base) := by
  intro i j h
  match i, j with
  | 0, 0 => rfl
  | 0, j + 1 => exact absurd h.symm (candidate_ne_base base (j + 1))
  | i + 1, 0 => exact absurd h (candidate_ne_base base (i + 1))
  | i + 1, j + 1 => exact candidate_inj base h

theorem slugTaken_none_iff (db : List ProductRow) (s : String) :
    slugTaken db none s = true ↔ s ∈ db.map ProductRow.slug := by
  unfold slugTaken
  rw [List.any_eq_true]
  constructor
  · rintro ⟨r, hr, h⟩
    exact List.mem_map.2 ⟨r, hr, by simpa [beq_iff_eq] using h⟩
  · intro h
    rcases List.mem_map.1 h with ⟨r, hr, hs⟩
    exact ⟨r, hr, by simp [hs]⟩

theorem probeSlug_spec (db : List ProductRow) (base : String) (m : Nat)
    (htaken : ∀ j < m, slugTaken db none (slugAt base j) = true)
    (hfree : slugTaken db none (slugAt base m) = false) :
    ∀ fuel i, i ≤ m → m - i ≤ fuel →
      probeSlug db none base fuel (slugAt base i) (i + 1) = slugAt base m := by
  intro fuel
  induction fuel with
  | zero =>
    intro i hi hf
    have : i = m := by omega
    subst this
    rfl
  | succ fuel ih =>
    intro i hi hf
    rcases Nat.lt_or_ge i m with hlt | hge
    · rw [probeSlug, if_pos (htaken i hlt)]
      have : candidate base (i + 1) = slugAt base (i + 1) := rfl
      rw [this]
      exact ih (i + 1) (by omega) (by omega)
    · have : i = m := by omega
      subst this
      rw [probeSlug, if_neg (by simp [hfree])]

theorem assignProductSlug_new (db : List ProductRow) (name base : String) (m : Nat)
    (hn : slugify name = base)
    (htaken : ∀ j < m, slugAt base j ∈ db.map ProductRow.slug)
    (hfree : slugAt base m ∉ db.map ProductRow.slug)
    (hm : m ≤ db.length) :
    assignProductSlug db none "" name = slugAt base m := by
  unfold assignProductSlug
  rw [if_pos rfl]
  show probeSlug db none (slugify name) (db.length + 1) (slugify name) 1 =
    slugAt base m
  rw [hn]
  exact probeSlug_spec db base m
    (fun j hj => (slugTaken_none_iff db _).2 (htaken j hj))
    (by
      cases hx : slugTaken db none (slugAt base m)
      · rfl
      · exact absurd ((slugTaken_none_iff db _).1 hx) hfree)
    (db.length + 1) 0 (by omega) (by omega)

theorem createProduct_step (db : List ProductRow) (n base : String) (k : Nat)
    (hn : slugify n = base)
    (hdb : db.map ProductRow.slug = (List.range k).map (slugAt base)) :
    (createProduct db n).map ProductRow.slug =
      (List.range (k + 1)).map (slugAt base) := by
  have hlen : db.length = k := by
    have := congrArg List.length hdb
    simpa using this
  have htaken : ∀ j < k, slugAt base j ∈ db.map ProductRow.slug := by
    intro j hj
    rw [hdb]
    exact List.mem_map.2 ⟨j, List.mem_range.2 hj, rfl⟩
  have hfree : slugAt base k ∉ db.map ProductRow.slug := by
    rw [hdb]
    intro hmem
    rcases List.mem_map.1 hmem with ⟨j, hj, heq⟩
    have hj' : j = k := slugAt_injective base heq
    have hlt : j < k := List.mem_range.1 hj
    omega
  have hassign : assignProductSlug db none "" n = slugAt base k :=
    assignProductSlug_new db n base k hn htaken hfree (by omega)
  show (db ++ [ProductRow.mk (db.length + 1) (assignProductSlug db none "" n)]).map
    ProductRow.slug = _
  rw [List.map_append, hdb, hassign, List.range_succ, List.map_append]
  rfl

theorem createProducts_aux (base : String) :
    ∀ (names : List String) (db : List ProductRow) (k : Nat),
      (∀ n ∈ names, slugify n = base) →
      db.map ProductRow.slug = (List.range k).map (slugAt base) →
      (names.foldl createProduct db).map ProductRow.slug =
        (List.range (k + names.length)).map (slugAt base) := by
  intro names
  induction names with
  | nil =>
    intro db k h hdb
    simpa using hdb
  | cons n ns ih =>
    intro db k h hdb
    have hstep := createProduct_step db n base k (h n (List.mem_cons_self n ns)) hdb
    have hrec := ih (createProduct db n) (k + 1)
      (fun m hm => h m (List.mem_cons_of_mem n hm)) hstep
    have harith : k + (n :: ns).length = (k + 1) + ns.length := by
      simp [List.length_cons]
      omega
    rw [List.foldl_cons, harith]
    exact hrec

/-- C1: creating N products with empty slugs whose names all slugify to
the same `base` hands out, in creation order, exactly the slugs `base`,
`base-1`, `base-2`, … (the smallest unused integer suffix, probed
sequentially from `base`), and the N resulting slugs are pairwise
distinct. -/
theorem c1_slug_sequence (names : List String) (base : String)
    (h : ∀ n ∈ names, slugify n = base) :
    (createProducts names).map ProductRow.slug =
      (List.range names.length).map (slugAt base) ∧
    ((createProducts names).map ProductRow.slug).Nodup := by
  have hmain : (createProducts names).map ProductRow.slug =
      (List.range names.length).map (slugAt base) := by
    have := createProducts_aux base names [] 0 h (by simp)
    simpa using this
  refine ⟨hmain, ?_⟩
  rw [hmain]
  exact List.Nodup.map (slugAt_injective base) (List.nodup_range _)

/-- Witness for C1: three names that slugify to `"red-apple"` receive
`red-apple`, `red-apple-1`, `red-apple-2` in creation order. -/
theorem c1_witness :
    (∀ n ∈ ["Red Apple", "red apple", "Red-Apple!"], slugify n = "red-apple") ∧
    (createProducts ["Red Apple", "red apple", "Red-Apple!"]).map ProductRow.slug =
      ["red-apple", "red-apple-1", "red-apple-2"] ∧
    ((createProducts ["Red Apple", "red apple", "Red-Apple!"]).map
      ProductRow.slug).Nodup := by
  have h : ∀ n ∈ ["Red Apple", "red apple", "Red-Apple!"],
      slugify n = "red-apple" := by decide
  have hc := c1_slug_sequence ["Red Apple", "red apple", "Red-Apple!"] "red-apple" h
  exact ⟨h, by decide, hc.2⟩

end Farmket
